import Mathlib

/-!
Shallow embedding of the YT-Keyword-Analyzer server (src/index.js).

The scoring pipeline is pure except for one random trend draw; we model the
draw as an explicitly passed rational `rand` (per keyword, a stream
`ℕ → ℚ` for batches).  JavaScript numbers are modelled as exact rationals
(scores are in fact integers throughout), `Math.round` as Mathlib's `round`
(both round half toward +∞), and JavaScript's `NaN` arising from `0/0` by a
dedicated constructor.  Falsy-coalescing defaults (`x || d`) are modelled
field by field: `0` and `""` count as absent.
-/

namespace YTKA

/-- JS `String.prototype.includes`: substring containment. -/
def jsIncludes (s pat : String) : Bool := decide (pat.data <:+: s.data)

/-- JS `keyword.split(' ')` over the character list: every occurrence of the
single-space separator splits, consecutive spaces produce empty pieces. -/
def splitOnSpace : List Char → List (List Char)
  | [] => [[]]
  | c :: cs =>
    if c = ' ' then [] :: splitOnSpace cs
    else match splitOnSpace cs with
      | [] => [[c]]
      | g :: gs => (c :: g) :: gs

/-- JS `String.prototype.toLowerCase` restricted to ASCII, character-wise. -/
def jsToLower (s : String) : String := ⟨s.data.map Char.toLower⟩

/-- Table `this.competitionPatterns.highCompetition` (src/index.js:15). -/
def highCompetition : List String := ["tutorial", "how to", "best", "review", "top 10", "guide"]

/-- Table `this.competitionPatterns.mediumCompetition` (src/index.js:16). -/
def mediumCompetition : List String := ["tips", "tricks", "explained", "walkthrough", "demo"]

/-- Table `this.competitionPatterns.lowCompetition` (src/index.js:17). -/
def lowCompetition : List String := ["mistakes", "underrated", "hidden", "secret", "advanced"]

/-- Table `this.trendingTopics` (src/index.js:21). -/
def trendingTopics : List String := ["ai", "chatgpt", "automation", "2025", "2024", "shorts", "viral"]

/-- One `for (const pattern of bucket) { if (keyword.includes(pattern)) { …; break } }`
loop: scans the bucket in order and stops at the first matching term.
Returns whether the single adjustment fired. -/
def bucketScan (kw : String) : List String → Bool
  | [] => false
  | p :: ps => if jsIncludes kw p then true else bucketScan kw ps

/-- A keyword entry as it arrives in the `keywords` array: either a bare
string or an object (unused `competition` field omitted; it never influences
the scorer). -/
structure KeywordObj where
  keyword : String
  category : Option String := none
  searchVolume : Option String := none
  relevance : Option ℚ := none
deriving DecidableEq

inductive KeywordData where
  | str (s : String)
  | obj (o : KeywordObj)
deriving DecidableEq

/-- Normalization `typeof keywordData === 'string' ? { keyword: keywordData } : keywordData`
(src/index.js:228). -/
def KeywordData.input : KeywordData → KeywordObj
  | .str s => { keyword := s }
  | .obj o => o

/-- JS `x || d` for an optional string field: `undefined` and `""` are falsy. -/
def jsOrStr (x : Option String) (d : String) : String :=
  match x with
  | some s => if s = "" then d else s
  | none => d

/-- JS `inputData.relevance || 0.5` (src/index.js:288, 308): an absent field
and an explicit `0` are both falsy and fall back to `0.5`. -/
def jsOrHalf (x : Option ℚ) : ℚ :=
  match x with
  | some v => if v = 0 then 0.5 else v
  | none => 0.5

/-- The competition score before clamping (src/index.js:231-258): base 50,
one break-terminated scan per bucket, long-tail relief for ≥ 4
space-delimited tokens. -/
def competitionScoreRaw (kw : String) : ℤ :=
  50 + (if bucketScan kw highCompetition then 15 else 0)
     + (if bucketScan kw mediumCompetition then 5 else 0)
     + (if bucketScan kw lowCompetition then -20 else 0)
     + (if 4 ≤ (splitOnSpace kw.data).length then -15 else 0)

/-- Clamp `competitionScore = Math.max(10, Math.min(95, competitionScore))`
(src/index.js:261). -/
def competitionScore (kw : String) : ℤ := max 10 (min 95 (competitionScoreRaw kw))

/-- Volume score (src/index.js:264-278): base 50, overridden by an exact
`searchVolume` of "high"/"medium"/"low", then a single trending-topic boost
capped at 100. -/
def volumeScore (kw : String) (sv : Option String) : ℤ :=
  let base : ℤ :=
    if sv = some "high" then 85
    else if sv = some "medium" then 60
    else if sv = some "low" then 35
    else 50
  if bucketScan kw trendingTopics then min 100 (base + 15) else base

inductive Trend where
  | rising | stable | declining
deriving DecidableEq

/-- The regex test `/202[4-9]/.test(keyword)` (src/index.js:318): does the
keyword contain one of the six four-character year strings? -/
def hasYearPattern (kw : String) : Bool :=
  (["2024", "2025", "2026", "2027", "2028", "2029"]).any (fun y => jsIncludes kw y)

/-- Function `calculateTrendDirection` (src/index.js:315-328) with the `Math.random()`
draw passed in explicitly. -/
def calculateTrendDirection (kw : String) (rand : ℚ) : Trend :=
  if trendingTopics.any (fun t => jsIncludes kw t) || hasYearPattern kw then .rising
  else if jsIncludes kw "classic" || jsIncludes kw "traditional" then .stable
  else if rand > 0.7 then .rising
  else if rand > 0.3 then .stable
  else .declining

/-- Opportunity score (src/index.js:285-289). -/
def opportunityScoreOf (vol comp : ℤ) (rel : ℚ) : ℤ :=
  round ((vol : ℚ) * 0.4 + ((100 : ℚ) - (comp : ℚ)) * 0.4 + rel * 20)

inductive Difficulty where
  | easy | medium | hard
deriving DecidableEq

/-- Difficulty rating (src/index.js:292-295). -/
def difficultyOf (comp : ℤ) : Difficulty :=
  if 70 ≤ comp then .hard else if 40 ≤ comp then .medium else .easy

/-- Level thresholds `competitionScore >= 70 ? 'high' : competitionScore >= 40 ? 'medium' : 'low'`
(src/index.js:302, 304). -/
def levelOf (s : ℤ) : String :=
  if 70 ≤ s then "high" else if 40 ≤ s then "medium" else "low"

/-- Function `getKeywordRecommendation` (src/index.js:330-340). -/
def getKeywordRecommendation (score : ℤ) (category : String) : String :=
  if 70 ≤ score then
    if category = "primary" then "Highly recommended for title"
    else "Strong candidate for description/tags"
  else if 50 ≤ score then "Good supporting keyword for description"
  else "Consider for long-form content or tags only"

structure Analysis where
  competitionScore : ℤ
  competitionLevel : String
  volumeScore : ℤ
  volumeLevel : String
  trendDirection : Trend
  difficulty : Difficulty
deriving DecidableEq

structure AnalyzedKeyword where
  keyword : String
  category : String
  analysis : Analysis
  relevance : ℚ
  opportunityScore : ℤ
  opportunityRating : String
  recommendation : String
deriving DecidableEq

/-- Function `analyzeKeyword` (src/index.js:225-313); `rand` is the `Math.random()`
value consumed by the trend-direction draw. -/
def analyzeKeyword (keywordData : KeywordData) (rand : ℚ) : AnalyzedKeyword :=
  let inputData := keywordData.input
  let kw := jsToLower inputData.keyword
  let comp := competitionScore kw
  let vol := volumeScore kw inputData.searchVolume
  let opp := opportunityScoreOf vol comp (jsOrHalf inputData.relevance)
  { keyword := inputData.keyword
    category := jsOrStr inputData.category "general"
    analysis :=
      { competitionScore := comp
        competitionLevel := levelOf comp
        volumeScore := vol
        volumeLevel := levelOf vol
        trendDirection := calculateTrendDirection kw rand
        difficulty := difficultyOf comp }
    relevance := jsOrHalf inputData.relevance
    opportunityScore := opp
    opportunityRating :=
      if 70 ≤ opp then "excellent" else if 50 ≤ opp then "good" else "low"
    recommendation := getKeywordRecommendation opp (jsOrStr inputData.category "general") }

/-- Mapping `keywords.map(kw => this.analyzeKeyword(kw, niche))` (src/index.js:179),
consuming one `Math.random()` value per keyword from the stream `rand`. -/
def analyzeList (l : List KeywordData) (rand : ℕ → ℚ) : List AnalyzedKeyword :=
  match l with
  | [] => []
  | k :: ks => analyzeKeyword k (rand 0) :: analyzeList ks (fun i => rand (i + 1))

/-- Sorting step `analyzedKeywords.sort((a, b) => b.opportunityScore - a.opportunityScore)`
(src/index.js:182).  `Array.prototype.sort` is stable; the comparator places
`a` before `b` exactly when `b.opportunityScore - a.opportunityScore ≤ 0`,
which is what a stable merge sort with that `le` computes. -/
def sortByOpportunity (l : List AnalyzedKeyword) : List AnalyzedKeyword :=
  l.mergeSort (fun a b => decide (b.opportunityScore ≤ a.opportunityScore))

/-- Filter `analyzedKeywords.filter(k => k.opportunityScore >= 70)` (src/index.js:185). -/
def topKeywords (s : List AnalyzedKeyword) : List AnalyzedKeyword :=
  s.filter (fun k => decide (70 ≤ k.opportunityScore))

/-- Filter `analyzedKeywords.filter(k => k.opportunityScore >= 50 && k.opportunityScore < 70)`
(src/index.js:186). -/
def goodKeywords (s : List AnalyzedKeyword) : List AnalyzedKeyword :=
  s.filter (fun k => decide (50 ≤ k.opportunityScore) && decide (k.opportunityScore < 70))

/-- Filter `analyzedKeywords.filter(k => k.opportunityScore < 50)` (src/index.js:187). -/
def lowPriorityKeywords (s : List AnalyzedKeyword) : List AnalyzedKeyword :=
  s.filter (fun k => decide (k.opportunityScore < 50))

/-- The value of `summary.averageOpportunityScore`: a JS number that is `NaN`
exactly when the division `0 / 0` happened. -/
inductive AvgScore where
  | nan
  | val (z : ℤ)
deriving DecidableEq

structure Insight where
  type : String
  message : String
  keywords : Option (List String) := none
deriving DecidableEq

/-- JS truthiness of an optional string (`if (niche)`): absent and `""` are falsy. -/
def jsTruthyStr (x : Option String) : Bool :=
  match x with
  | some s => decide (s ≠ "")
  | none => false

/-- Function `generateInsights` (src/index.js:342-383); `concept` is accepted and unused,
as in the source. -/
def generateInsights (analyzedKeywords : List AnalyzedKeyword)
    (_concept niche : Option String) : List Insight :=
  let gap : List Insight :=
    if (analyzedKeywords.map (fun k => k.category)).contains "long-tail" then []
    else [{ type := "gap"
            message := "Consider adding more long-tail keywords for better voice search optimization" }]
  let risingKeywords := analyzedKeywords.filter
    (fun k => decide (k.analysis.trendDirection = Trend.rising))
  let opportunity : List Insight :=
    if risingKeywords.length > 0 then
      [{ type := "opportunity"
         message := toString risingKeywords.length ++
           " keywords are trending up - prioritize these for timely content"
         keywords := some ((risingKeywords.take 3).map (fun k => k.keyword)) }]
    else []
  let easyWins := analyzedKeywords.filter
    (fun k => decide (k.analysis.difficulty = Difficulty.easy) &&
              decide (40 ≤ k.analysis.volumeScore))
  let quickWin : List Insight :=
    if easyWins.length > 0 then
      [{ type := "quick-win"
         message := "Found " ++ toString easyWins.length ++
           " low-competition keywords with decent volume"
         keywords := some ((easyWins.take 3).map (fun k => k.keyword)) }]
    else []
  let nicheNote : List Insight :=
    match niche with
    | some n =>
      if n = "" then []
      else [{ type := "niche"
              message := "For " ++ n ++ " content, focus on specific terminology and community language" }]
    | none => []
  gap ++ opportunity ++ quickWin ++ nicheNote

structure Recommended where
  primary : List AnalyzedKeyword
  secondary : List AnalyzedKeyword
  longTail : List AnalyzedKeyword
deriving DecidableEq

structure Summary where
  topOpportunities : ℕ
  goodOpportunities : ℕ
  lowPriority : ℕ
  averageOpportunityScore : AvgScore
deriving DecidableEq

/-- The report object returned by `analyzeKeywords` (src/index.js:199-222).
The `analyzedAt` wall-clock timestamp is outside the embedding. -/
structure AnalysisReport where
  concept : String
  targetAudience : String
  niche : String
  totalAnalyzed : ℕ
  summary : Summary
  recommended : Recommended
  allKeywords : List AnalyzedKeyword
  insights : List Insight
  nextSteps : List String
deriving DecidableEq

/-- The body of `analyzeKeywords` after the input guard (src/index.js:177-222). -/
def buildReport (keywords : List KeywordData) (concept targetAudience niche : Option String)
    (rand : ℕ → ℚ) : AnalysisReport :=
  let analyzedKeywords := sortByOpportunity (analyzeList keywords rand)
  let top := topKeywords analyzedKeywords
  let good := goodKeywords analyzedKeywords
  let low := lowPriorityKeywords analyzedKeywords
  let insights := generateInsights analyzedKeywords concept niche
  let recommended : Recommended :=
    { primary := top.take 3
      secondary := good.take 5
      longTail := (analyzedKeywords.filter (fun k => decide (k.category = "long-tail"))).take 10 }
  { concept := jsOrStr concept "Not specified"
    targetAudience := jsOrStr targetAudience "general"
    niche := jsOrStr niche "general"
    totalAnalyzed := analyzedKeywords.length
    summary :=
      { topOpportunities := top.length
        goodOpportunities := good.length
        lowPriority := low.length
        averageOpportunityScore :=
          if analyzedKeywords.length = 0 then .nan
          else .val (round (((analyzedKeywords.map (fun k => k.opportunityScore)).sum : ℚ) /
            (analyzedKeywords.length : ℚ))) }
    recommended := recommended
    allKeywords := analyzedKeywords
    insights := insights
    nextSteps :=
      ["Use \"" ++ jsOrStr ((recommended.primary.head?).map (fun k => k.keyword)) "top keyword"
         ++ "\" as your main title keyword",
       "Incorporate secondary keywords naturally in your description",
       "Use long-tail keywords in your video script for voice search optimization",
       "Monitor trending topics for timely content opportunities"] }

/-- The JS value found in the `keywords` field of the `arguments` object:
absent (`undefined`), `null`, some other non-array value (with its JS
truthiness), or an actual array. -/
inductive KeywordsField where
  | missing
  | null
  | nonArray (truthy : Bool)
  | arr (l : List KeywordData)
deriving DecidableEq

def KeywordsField.isFalsy : KeywordsField → Bool
  | .missing => true
  | .null => true
  | .nonArray t => !t
  | .arr _ => false

def KeywordsField.isArray : KeywordsField → Bool
  | .arr _ => true
  | _ => false

def KeywordsField.elems : KeywordsField → List KeywordData
  | .arr l => l
  | _ => []

structure Args where
  keywords : KeywordsField := .missing
  concept : Option String := none
  targetAudience : Option String := none
  niche : Option String := none
deriving DecidableEq

/-- Function `analyzeKeywords` (src/index.js:172-223): the guard
`if (!keywords || !Array.isArray(keywords)) throw new Error('Keywords array is required')`
becomes an `Except.error` carrying the thrown message. -/
def analyzeKeywords (args : Args) (rand : ℕ → ℚ) : Except String AnalysisReport :=
  if args.keywords.isFalsy || !args.keywords.isArray then
    .error "Keywords array is required"
  else
    .ok (buildReport args.keywords.elems args.concept args.targetAudience args.niche rand)

inductive JsonId where
  | null
  | num (n : ℤ)
  | str (s : String)
deriving DecidableEq

structure ErrorObj where
  code : ℤ
  message : String
deriving DecidableEq

inductive RpcResult where
  | content (r : AnalysisReport)
  | ping
  | toolsList
deriving DecidableEq

structure Response where
  result : Option RpcResult := none
  error : Option ErrorObj := none
  id : JsonId
deriving DecidableEq

structure ToolCallParams where
  name : String := ""
  arguments : Args := {}
deriving DecidableEq

/-- A parsed request envelope `{method, params?, id}`; `params := none` models
an absent (or `null`) `params` field. -/
structure Request where
  method : String
  params : Option ToolCallParams := none
  id : JsonId := .null
deriving DecidableEq

/-- Function `handleToolCall` (src/index.js:143-170).  With absent `params` the very
first line `const { name, arguments: args } = params` throws a `TypeError`,
modelled as `Except.error ()`; the `try/catch` around `analyzeKeywords`
converts its thrown message into a `-32603` error envelope. -/
def handleToolCall (params : Option ToolCallParams) (id : JsonId) (rand : ℕ → ℚ) :
    Except Unit Response :=
  match params with
  | none => .error ()
  | some p =>
    if p.name ≠ "analyzeKeywords" then
      .ok { error := some ⟨-32602, "Unknown tool: " ++ p.name⟩, id := id }
    else
      match analyzeKeywords p.arguments rand with
      | .ok report => .ok { result := some (.content report), id := id }
      | .error msg => .ok { error := some ⟨-32603, msg⟩, id := id }

/-- Function `handleRequest` (src/index.js:61-81); a `TypeError` escaping
`handleToolCall` propagates (rejected promise), hence the `Except`. -/
def handleRequest (req : Request) (rand : ℕ → ℚ) : Except Unit Response :=
  match req.method with
  | "ping" => .ok { result := some .ping, id := req.id }
  | "tools/list" => .ok { result := some .toolsList, id := req.id }
  | "tools/call" => handleToolCall req.params req.id rand
  | m => .ok { error := some ⟨-32601, "Method not found: " ++ m⟩, id := req.id }

/-- The `ws.on('message')` handler (src/index.js:30-44) for a message that
parses to a well-formed envelope: any rejection escaping `handleRequest`
lands in the `catch` block, which answers `-32700` "Parse error" with
`id: null`. -/
def handleMessage (req : Request) (rand : ℕ → ℚ) : Response :=
  match handleRequest req rand with
  | .ok resp => resp
  | .error _ => { error := some ⟨-32700, "Parse error"⟩, id := .null }

/-- Modelled from the claim's wording (spec §4.1 step 4): "rising" on a
trending-topic term or a 2024–2029 year pattern, else "stable" on
"classic"/"traditional", else thresholds `r > 0.7` / `r > 0.3` on the
uniform draw.  To be compared against `calculateTrendDirection`. -/
def trendDirectionSpec (kw : String) (r : ℚ) : Trend :=
  if (∃ t ∈ trendingTopics, jsIncludes kw t) ∨ hasYearPattern kw then .rising
  else if jsIncludes kw "classic" ∨ jsIncludes kw "traditional" then .stable
  else if r > 0.7 then .rising
  else if r > 0.3 then .stable
  else .declining

/-! ## Helper lemmas -/

/-- A break-terminated bucket scan fires exactly when some term of the bucket
occurs in the keyword. -/
theorem bucketScan_eq_any (kw : String) (l : List String) :
    bucketScan kw l = l.any (fun p => jsIncludes kw p) := by
  induction l with
  | nil => rfl
  | cons p ps ih =>
    by_cases h : jsIncludes kw p = true <;> simp [bucketScan, h, ih]

/-! ## Claim theorems -/

/-- C2: the three competition-pattern bucket checks are evaluated
independently — one adjustment (+15, +5, −20) per bucket containing a
matching term, at most one adjustment per bucket however many of its terms
occur — followed by the long-tail relief and the clamp. -/
theorem c2_bucket_adjustments (kd : KeywordData) (rand : ℚ) :
    (analyzeKeyword kd rand).analysis.competitionScore =
      max 10 (min 95 (50
        + (if ∃ p ∈ highCompetition, jsIncludes (jsToLower kd.input.keyword) p then 15 else 0)
        + (if ∃ p ∈ mediumCompetition, jsIncludes (jsToLower kd.input.keyword) p then 5 else 0)
        + (if ∃ p ∈ lowCompetition, jsIncludes (jsToLower kd.input.keyword) p then -20 else 0)
        + (if 4 ≤ (splitOnSpace (jsToLower kd.input.keyword).data).length then -15 else 0))) := by
  show max 10 (min 95 (competitionScoreRaw (jsToLower kd.input.keyword))) = _
  unfold competitionScoreRaw
  simp only [bucketScan_eq_any, List.any_eq_true, decide_eq_true_eq]

/-- C4: every produced competition score lies in the clamp range [10, 95]. -/
theorem c4_competition_clamped (kd : KeywordData) (rand : ℚ) :
    10 ≤ (analyzeKeyword kd rand).analysis.competitionScore ∧
    (analyzeKeyword kd rand).analysis.competitionScore ≤ 95 := by
  constructor
  · exact le_max_left _ _
  · exact max_le (by norm_num) (min_le_left _ _)

/-- C9: scoring is deterministic apart from the trend draw — two runs on the
same input with different random values agree on competitionScore,
volumeScore, opportunityScore, difficulty and recommendation. -/
theorem c9_deterministic_scoring (kd : KeywordData) (r₁ r₂ : ℚ) :
    (analyzeKeyword kd r₁).analysis.competitionScore
        = (analyzeKeyword kd r₂).analysis.competitionScore ∧
    (analyzeKeyword kd r₁).analysis.volumeScore = (analyzeKeyword kd r₂).analysis.volumeScore ∧
    (analyzeKeyword kd r₁).opportunityScore = (analyzeKeyword kd r₂).opportunityScore ∧
    (analyzeKeyword kd r₁).analysis.difficulty = (analyzeKeyword kd r₂).analysis.difficulty ∧
    (analyzeKeyword kd r₁).recommendation = (analyzeKeyword kd r₂).recommendation :=
  ⟨rfl, rfl, rfl, rfl, rfl⟩

/-- C8: the trend direction of an analyzed keyword coincides with the
spec-worded rule `trendDirectionSpec` on the lowercased keyword — rising
deterministically on trending terms or a 2024–2029 year, stable on
"classic"/"traditional", else decided by the single uniform draw with
thresholds 0.7 and 0.3. -/
theorem c8_trend_direction (kd : KeywordData) (r : ℚ) :
    (analyzeKeyword kd r).analysis.trendDirection =
      trendDirectionSpec (jsToLower kd.input.keyword) r := by
  show calculateTrendDirection (jsToLower kd.input.keyword) r = _
  unfold calculateTrendDirection trendDirectionSpec
  simp only [List.any_eq_true, Bool.or_eq_true, decide_eq_true_eq]

/-- C1 counterexample: with an explicit relevance of 0 the code's `||`
default kicks in (0 is falsy), so the relevance term contributes 10, not 0:
the keyword "camera" with relevance 0 scores 50, while the claim's formula
with a relevance contribution of 0 yields 40. -/
theorem c1_relevance_zero_counterexample :
    (analyzeKeyword (.obj { keyword := "camera", relevance := some 0 }) 0).opportunityScore = 50 ∧
    opportunityScoreOf
        (analyzeKeyword (.obj { keyword := "camera", relevance := some 0 }) 0).analysis.volumeScore
        (analyzeKeyword (.obj { keyword := "camera", relevance := some 0 }) 0).analysis.competitionScore
        0 = 40 := by
  constructor
  · show opportunityScoreOf 50 50 (jsOrHalf (some 0)) = 50
    norm_num [opportunityScoreOf, jsOrHalf, round_eq]
  · show opportunityScoreOf 50 50 0 = 40
    norm_num [opportunityScoreOf, round_eq]

/-- C1 amended: the opportunity score is
round(volumeScore × 0.4 + (100 − competitionScore) × 0.4 + relevance × 20)
where relevance falls back to 0.5 both when the field is absent and when it
is (falsy) 0. -/
theorem c1_opportunity_formula_amended (kd : KeywordData) (rand : ℚ) :
    (analyzeKeyword kd rand).opportunityScore =
      round ((((analyzeKeyword kd rand).analysis.volumeScore : ℚ)) * 0.4
        + ((100 : ℚ) - (((analyzeKeyword kd rand).analysis.competitionScore : ℚ))) * 0.4
        + jsOrHalf kd.input.relevance * 20) ∧
    jsOrHalf none = 0.5 ∧ jsOrHalf (some 0) = 0.5 := by
  refine ⟨rfl, rfl, ?_⟩
  simp [jsOrHalf]

/-- C10: a well-formed "tools/call" envelope without `params` makes the
router throw while destructuring (no method- or tool-level error envelope is
returned), and the transport layer answers −32700 "Parse error" with id
`null`, losing the request's id. -/
theorem c10_missing_params_parse_error (id : JsonId) (rand : ℕ → ℚ) :
    handleRequest { method := "tools/call", params := none, id := id } rand = .error () ∧
    handleMessage { method := "tools/call", params := none, id := id } rand =
      { error := some ⟨-32700, "Parse error"⟩, id := .null } :=
  ⟨rfl, rfl⟩

/-- C7: a tools/call of analyzeKeywords whose `keywords` field is missing,
null or not an array is answered with a −32603 error envelope carrying
exactly "Keywords array is required"; with an actual array the call
succeeds, so that error is never produced. -/
theorem c7_keywords_required_error (p : ToolCallParams) (id : JsonId) (rand : ℕ → ℚ)
    (hname : p.name = "analyzeKeywords") :
    (p.arguments.keywords.isArray = false →
      handleToolCall (some p) id rand =
        .ok { error := some ⟨-32603, "Keywords array is required"⟩, id := id }) ∧
    (∀ l, p.arguments.keywords = .arr l →
      handleToolCall (some p) id rand =
        .ok { result := some (.content (buildReport l p.arguments.concept
          p.arguments.targetAudience p.arguments.niche rand)), id := id }) := by
  constructor
  · intro harr
    simp [handleToolCall, hname, analyzeKeywords, harr]
  · intro l hl
    simp [handleToolCall, hname, analyzeKeywords, hl,
      KeywordsField.isFalsy, KeywordsField.isArray, KeywordsField.elems]

/-- C7 witness: calling analyzeKeywords with `keywords: null` produces the
−32603 "Keywords array is required" envelope. -/
theorem c7_keywords_required_error_witness :
    handleToolCall (some { name := "analyzeKeywords", arguments := { keywords := .null } })
        (.num 1) (fun _ => 0) =
      .ok { error := some ⟨-32603, "Keywords array is required"⟩, id := .num 1 } :=
  (c7_keywords_required_error _ _ _ rfl).1 rfl

/-- C6 counterexample: on the empty keywords array the summary's
averageOpportunityScore is the NaN produced by the division `0 / 0`, not a
defined documented value such as 0 — the batch itself is analyzed without
the InvalidInput error. -/
theorem c6_empty_batch_counterexample :
    analyzeKeywords { keywords := .arr [] } (fun _ => 0) =
      .ok (buildReport [] none none none (fun _ => 0)) ∧
    (buildReport [] none none none (fun _ => 0)).summary.averageOpportunityScore = .nan ∧
    AvgScore.nan ≠ AvgScore.val 0 := by
  refine ⟨rfl, ?_, by simp⟩
  simp [buildReport, analyzeList, sortByOpportunity]

/-- C6 amended: the empty keywords array does not trigger the InvalidInput
error — the report is produced — but summary.averageOpportunityScore is the
result of dividing by zero (JS NaN, serialized as null), not a documented
finite value. -/
theorem c6_empty_batch_amended (c t n : Option String) (rand : ℕ → ℚ) :
    analyzeKeywords { keywords := .arr [], concept := c, targetAudience := t, niche := n } rand =
      .ok (buildReport [] c t n rand) ∧
    (buildReport [] c t n rand).summary.averageOpportunityScore = .nan := by
  refine ⟨rfl, ?_⟩
  simp [buildReport, analyzeList, sortByOpportunity]

/-- Transitivity of the sort comparator used on analyzed keywords. -/
theorem oppLe_trans : ∀ a b c : AnalyzedKeyword,
    decide (b.opportunityScore ≤ a.opportunityScore) = true →
    decide (c.opportunityScore ≤ b.opportunityScore) = true →
    decide (c.opportunityScore ≤ a.opportunityScore) = true := by
  intro a b c hab hbc
  simp only [decide_eq_true_eq] at *
  omega

/-- Totality of the sort comparator used on analyzed keywords. -/
theorem oppLe_total : ∀ a b : AnalyzedKeyword,
    (decide (b.opportunityScore ≤ a.opportunityScore)
      || decide (a.opportunityScore ≤ b.opportunityScore)) = true := by
  intro a b
  simp only [Bool.or_eq_true, decide_eq_true_eq]
  omega

/-- The sorted list is pairwise non-increasing in opportunityScore. -/
theorem sortByOpportunity_sorted (l : List AnalyzedKeyword) :
    (sortByOpportunity l).Pairwise
      (fun a b => b.opportunityScore ≤ a.opportunityScore) := by
  unfold sortByOpportunity
  refine (List.sorted_mergeSort oppLe_trans oppLe_total l).imp ?_
  intro a b h
  exact of_decide_eq_true h

/-- Stability: among keywords of any fixed opportunityScore, sorting keeps
the original relative order. -/
theorem sortByOpportunity_stable (l : List AnalyzedKeyword) (s : ℤ) :
    (sortByOpportunity l).filter (fun k => decide (k.opportunityScore = s)) =
      l.filter (fun k => decide (k.opportunityScore = s)) := by
  unfold sortByOpportunity
  have hpair : (l.filter (fun k => decide (k.opportunityScore = s))).Pairwise
      (fun a b => decide (b.opportunityScore ≤ a.opportunityScore) = true) := by
    apply List.pairwise_of_forall_mem_list
    intro a ha b hb
    have ha' := List.of_mem_filter ha
    have hb' := List.of_mem_filter hb
    simp only [decide_eq_true_eq] at ha' hb' ⊢
    omega
  have hsub : List.Sublist (l.filter (fun k => decide (k.opportunityScore = s)))
      (l.mergeSort (fun a b => decide (b.opportunityScore ≤ a.opportunityScore))) :=
    List.sublist_mergeSort oppLe_trans oppLe_total hpair (List.filter_sublist l)
  have hself : (l.filter (fun k => decide (k.opportunityScore = s))).filter
      (fun k => decide (k.opportunityScore = s)) =
      l.filter (fun k => decide (k.opportunityScore = s)) :=
    List.filter_eq_self.mpr (fun a ha => (List.mem_filter.mp ha).2)
  have hsub2 : List.Sublist (l.filter (fun k => decide (k.opportunityScore = s)))
      ((l.mergeSort (fun a b => decide (b.opportunityScore ≤ a.opportunityScore))).filter
        (fun k => decide (k.opportunityScore = s))) := by
    have := hsub.filter (fun k => decide (k.opportunityScore = s))
    rwa [hself] at this
  have hlen : ((l.mergeSort (fun a b =>
        decide (b.opportunityScore ≤ a.opportunityScore))).filter
        (fun k => decide (k.opportunityScore = s))).length =
      (l.filter (fun k => decide (k.opportunityScore = s))).length :=
    ((List.mergeSort_perm l _).filter _).length_eq
  exact (hsub2.eq_of_length hlen.symm).symm

/-- C3: allKeywords is the analyzed batch sorted non-increasingly by
opportunityScore, and the sort is stable — keywords of equal score keep
their input order. -/
theorem c3_allKeywords_sorted_stable (keywords : List KeywordData)
    (c t n : Option String) (rand : ℕ → ℚ) :
    (buildReport keywords c t n rand).allKeywords.Pairwise
      (fun a b => b.opportunityScore ≤ a.opportunityScore) ∧
    ∀ s : ℤ,
      (buildReport keywords c t n rand).allKeywords.filter
          (fun k => decide (k.opportunityScore = s)) =
        (analyzeList keywords rand).filter (fun k => decide (k.opportunityScore = s)) :=
  ⟨sortByOpportunity_sorted _, fun s => sortByOpportunity_stable _ s⟩

/-- The three tier filters of a list of analyzed keywords exhaust it. -/
theorem tier_partition_length (s : List AnalyzedKeyword) :
    (topKeywords s).length + (goodKeywords s).length + (lowPriorityKeywords s).length
      = s.length := by
  induction s with
  | nil => rfl
  | cons k ks ih =>
    unfold topKeywords goodKeywords lowPriorityKeywords at ih ⊢
    simp only [List.filter_cons]
    by_cases h1 : (70:ℤ) ≤ k.opportunityScore <;>
      by_cases h2 : (50:ℤ) ≤ k.opportunityScore <;>
        by_cases h3 : k.opportunityScore < 70 <;>
          by_cases h4 : k.opportunityScore < 50 <;>
            first
            | (exfalso; omega)
            | (simp [h1, h2, h3, h4]; omega)

/-- C5: the tiers partition the analyzed batch — the three summary counts
add up to totalAnalyzed, tier membership is decided exactly at the 70 and 50
boundaries, and the tiers are pairwise disjoint. -/
theorem c5_tier_partition (keywords : List KeywordData)
    (c t n : Option String) (rand : ℕ → ℚ) :
    (buildReport keywords c t n rand).summary.topOpportunities
        + (buildReport keywords c t n rand).summary.goodOpportunities
        + (buildReport keywords c t n rand).summary.lowPriority
      = (buildReport keywords c t n rand).totalAnalyzed ∧
    (∀ k ∈ (buildReport keywords c t n rand).allKeywords,
      (k ∈ topKeywords (buildReport keywords c t n rand).allKeywords ↔
        70 ≤ k.opportunityScore) ∧
      (k ∈ goodKeywords (buildReport keywords c t n rand).allKeywords ↔
        50 ≤ k.opportunityScore ∧ k.opportunityScore < 70) ∧
      (k ∈ lowPriorityKeywords (buildReport keywords c t n rand).allKeywords ↔
        k.opportunityScore < 50)) ∧
    List.Disjoint (topKeywords (buildReport keywords c t n rand).allKeywords)
      (goodKeywords (buildReport keywords c t n rand).allKeywords) ∧
    List.Disjoint (topKeywords (buildReport keywords c t n rand).allKeywords)
      (lowPriorityKeywords (buildReport keywords c t n rand).allKeywords) ∧
    List.Disjoint (goodKeywords (buildReport keywords c t n rand).allKeywords)
      (lowPriorityKeywords (buildReport keywords c t n rand).allKeywords) := by
  refine ⟨tier_partition_length _, ?_, ?_, ?_, ?_⟩
  · intro k hk
    refine ⟨?_, ?_, ?_⟩ <;>
      simp [topKeywords, goodKeywords, lowPriorityKeywords, List.mem_filter, hk]
  · intro a ha hb
    have h1 := List.of_mem_filter ha
    have h2 := List.of_mem_filter hb
    simp only [Bool.and_eq_true, decide_eq_true_eq] at h1 h2
    omega
  · intro a ha hb
    have h1 := List.of_mem_filter ha
    have h2 := List.of_mem_filter hb
    simp only [decide_eq_true_eq] at h1 h2
    omega
  · intro a ha hb
    have h1 := List.of_mem_filter ha
    have h2 := List.of_mem_filter hb
    simp only [Bool.and_eq_true, decide_eq_true_eq] at h1 h2
    omega

end YTKA
